import Mathlib

/-!
Verification of the x86-64 instruction-set loader (`src/opcodes/x86_64.py`).

The loader reads an XML schema document describing instruction encodings and
builds a strongly typed object graph.  This file gives a shallow embedding of
that loader: the XML document is modelled as a tree of nodes with attribute
lists, every Python exception (KeyError, ValueError, AssertionError,
IndexError, TypeError, NameError) is modelled as an `Except.error`, and the
loader itself is translated branch by branch from `read_instruction_set`.

Modelling notes kept throughout:
* Python `int(s)` / `int(s, 16)` / `int(s, 2)` is modelled by `pyInt` for the
  forms occurring in the schema (optional sign followed by digits of the
  base); the surrounding-whitespace, underscore and `0x`/`0b`-prefix forms
  Python also accepts are not modelled.
* Python list indexing (`operands[i]`, which accepts negative indices counted
  from the end and raises `IndexError` otherwise) is modelled by
  `resolveOperand`, which returns the normalized non-negative position.  The
  source stores the `Operand` object itself; we record its resolved position
  in the owning form's operand list, which identifies the same object.
* The source's local variable `rex` is bound inside the `REX` branch of the
  component dispatch and, being function-scoped, stays visible to every later
  component of the whole load; the `VEX` branch reads `rex.R` / `rex.B`.  We
  thread this as `Option REX` state (`none` = the variable was never bound, so
  reading it raises `NameError`).
-/

namespace LookAsm

/-- An XML element: tag, attribute list, child elements.  Attribute keys are
unique in an XML document; lookup returns the first binding. -/
inductive XmlNode where
  | mk (tag : String) (attrib : List (String × String)) (children : List XmlNode)

def XmlNode.tag : XmlNode → String
  | .mk t _ _ => t

def XmlNode.attrib : XmlNode → List (String × String)
  | .mk _ a _ => a

def XmlNode.children : XmlNode → List XmlNode
  | .mk _ _ c => c

/-- `k in node.attrib` / `node.attrib[k]` lookup. -/
def lookupAttr (x : XmlNode) (k : String) : Option String :=
  x.attrib.lookup k

/-- Python `k in element.attrib`. -/
def hasAttr (x : XmlNode) (k : String) : Bool :=
  (lookupAttr x k).isSome

/-- Python `element.attrib[k]`: raises `KeyError` when the attribute is
absent. -/
def getAttr (x : XmlNode) (k : String) : Except String String :=
  match lookupAttr x k with
  | some v => Except.ok v
  | none => Except.error ("KeyError: " ++ k)

/-- Python `element.attrib.get(k, d)`. -/
def attrDefault (x : XmlNode) (k d : String) : String :=
  (lookupAttr x k).getD d

/-- `element.findall(a ++ "/" ++ b)`: the `b`-tagged children of the
`a`-tagged children, in document order. -/
def findall2 (x : XmlNode) (a b : String) : List XmlNode :=
  (x.children.filter (fun c => c.tag == a)).flatMap
    (fun c => c.children.filter (fun d => d.tag == b))

/-- Python `assert cond`: `AssertionError` when the condition is false. -/
def pyAssert (b : Bool) (msg : String) : Except String Unit :=
  if b then Except.ok () else Except.error msg

/-- `{"true": True, "false": False}[s]`: any other string raises `KeyError`. -/
def parseBoolStrict (s : String) : Except String Bool :=
  if s == "true" then Except.ok true
  else if s == "false" then Except.ok false
  else Except.error "KeyError: bool"

/-- Numeric value of a digit character (any base up to 36); `99` marks a
non-digit. -/
def digitVal (c : Char) : Nat :=
  if 0x30 ≤ c.toNat ∧ c.toNat ≤ 0x39 then c.toNat - 0x30
  else if 0x61 ≤ c.toNat ∧ c.toNat ≤ 0x7a then c.toNat - 0x61 + 10
  else if 0x41 ≤ c.toNat ∧ c.toNat ≤ 0x5a then c.toNat - 0x41 + 10
  else 99

/-- Accumulating digit parser for `pyInt`. -/
def parseDigits (base : Nat) : List Char → Nat → Option Nat
  | [], acc => some acc
  | c :: rest, acc =>
      if digitVal c < base then parseDigits base rest (acc * base + digitVal c)
      else none

/-- Python `int(s, base)` for an optional sign followed by a nonempty digit
string of the base; anything else raises `ValueError`. -/
def pyInt (s : String) (base : Nat) : Except String Int :=
  match s.toList with
  | [] => Except.error "ValueError"
  | '-' :: rest =>
      match rest with
      | [] => Except.error "ValueError"
      | _ =>
        match parseDigits base rest 0 with
        | some n => Except.ok (-(n : Int))
        | none => Except.error "ValueError"
  | '+' :: rest =>
      match rest with
      | [] => Except.error "ValueError"
      | _ =>
        match parseDigits base rest 0 with
        | some n => Except.ok ((n : Int))
        | none => Except.error "ValueError"
  | cs =>
      match parseDigits base cs 0 with
      | some n => Except.ok ((n : Int))
      | none => Except.error "ValueError"

/-- An explicit instruction operand (class `Operand`). -/
structure Operand where
  type : String
  is_input : Bool
  is_output : Bool
deriving DecidableEq, Repr

/-- `Operand.is_variable`. -/
def Operand.is_variable (o : Operand) : Bool :=
  o.is_input || o.is_output

/-- `Operand.is_register`: membership in the fixed register-type set of the
source. -/
def Operand.is_register (o : Operand) : Bool :=
  ["al", "cl", "ax", "eax", "rax", "xmm0", "r8", "r16", "r32", "r64",
   "r8l", "r16l", "r32l", "mm", "xmm", "ymm"].contains o.type

/-- `Operand.is_memory`: membership in the fixed memory-type set of the
source. -/
def Operand.is_memory (o : Operand) : Bool :=
  ["m", "m8", "m16", "m32", "m64", "m80", "m128", "m256", "m512"].contains o.type

/-- Python `operands[i]` (`int` index): negative indices count from the end;
out-of-range raises `IndexError`.  Returns the normalized position. -/
def resolveOperand (ops : List Operand) (i : Int) : Except String Nat :=
  if 0 ≤ i ∧ i < (ops.length : Int) then Except.ok i.toNat
  else if -(ops.length : Int) ≤ i ∧ i < 0 then Except.ok (i + (ops.length : Int)).toNat
  else Except.error "IndexError"

/-- A resolved bit/byte field of a component: a numeric literal, the ignored
sentinel (Python `None`), or a reference to the operand at the recorded
position of the owning form's operand list. -/
inductive BitSource where
  | ignored
  | lit (n : Int)
  | opRef (i : Nat)
deriving DecidableEq, Repr

/-- Class `Prefix` (named `PrefixByte` here): a 0x66/0xF2/0xF3 prefix. -/
structure PrefixByte where
  byte : Int
  is_mandatory : Bool
deriving DecidableEq, Repr

/-- Class `REX`. -/
structure REX where
  is_mandatory : Bool
  W : BitSource
  R : BitSource
  X : BitSource
  B : BitSource
deriving DecidableEq, Repr

/-- Class `VEX`. -/
structure VEX where
  mmmmm : Int
  pp : Int
  W : BitSource
  L : BitSource
  R : BitSource
  X : BitSource
  B : BitSource
  vvvv : BitSource
deriving DecidableEq, Repr

/-- Class `Opcode`: the `addend`, when present, is the resolved position of
the referenced operand. -/
structure Opcode where
  byte : Int
  addend : Option Nat
deriving DecidableEq, Repr

/-- Class `ModRM`: `rm` is the resolved position of the rm operand. -/
structure ModRM where
  mode : BitSource
  reg : BitSource
  rm : Nat
deriving DecidableEq, Repr

/-- The twelve encoding-component variants (classes `Prefix`, `REX`, `VEX`,
`Opcode`, `ModRM`, `ImmediateByte/Word/DWord/QWord`, `CodeOffset8/32`,
`DataOffset32/64`); immediate and offset components carry the resolved
position of their operand. -/
inductive Component where
  | prefixByte (p : PrefixByte)
  | rex (r : REX)
  | vex (v : VEX)
  | opcode (o : Opcode)
  | modRM (m : ModRM)
  | immediateByte (i : Nat)
  | immediateWord (i : Nat)
  | immediateDWord (i : Nat)
  | immediateQWord (i : Nat)
  | codeOffset8 (i : Nat)
  | codeOffset32 (i : Nat)
  | dataOffset32 (i : Nat)
  | dataOffset64 (i : Nat)
deriving DecidableEq, Repr

/-- Class `Encoding`. -/
structure Encoding where
  components : List Component
deriving DecidableEq, Repr

/-- Class `InstructionForm`.  `gas_name` keeps the class's `Option` shape
(initialized to `None` and always assigned by the loader); `go_name`,
`mmx_mode` and `xmm_mode` are `None` when the attribute is absent. -/
structure InstructionForm where
  name : String
  gas_name : Option String
  go_name : Option String
  mmx_mode : Option String
  xmm_mode : Option String
  operands : List Operand
  implicit_inputs : List String
  implicit_outputs : List String
  isa_extensions : List String
  encodings : List Encoding
deriving DecidableEq, Repr

/-- Class `Instruction`. -/
structure Instruction where
  name : String
  summary : String
  forms : List InstructionForm
deriving DecidableEq, Repr

/-- Python set `add`: the implicit-register sets, modelled as duplicate-free
lists. -/
def setAdd (l : List String) (s : String) : List String :=
  if l.contains s then l else l ++ [s]

/-- The `"ignored"`-string-or-`int(s)` resolution used for literal bit
attributes (`rex.W = int(rex.W)` after the `"ignored"` test). -/
def readLitOrIgnored (s : String) : Except String BitSource :=
  if s == "ignored" then Except.ok BitSource.ignored
  else do
    let n ← pyInt s 10
    Except.ok (BitSource.lit n)

/-- `instruction_form.operands[int(element.attrib[key])]`, returning the
resolved position. -/
def readOperandRef (ops : List Operand) (s : String) : Except String Nat := do
  let i ← pyInt s 10
  resolveOperand ops i

/-- Python `int(rex.field)` where `rex` is the function-scoped variable bound
by the most recent `REX` branch: `NameError` when the variable was never
bound, `TypeError` when the field is `None` or an `Operand`. -/
def pyIntOfRexBit (st : Option REX) (f : REX → BitSource) : Except String Int :=
  match st with
  | none => Except.error "NameError: rex"
  | some r =>
      match f r with
      | BitSource.lit n => Except.ok n
      | BitSource.ignored => Except.error "TypeError: int(None)"
      | BitSource.opRef _ => Except.error "TypeError: int(Operand)"

/-- The `Prefix` branch of the component dispatch. -/
def readPrefix (x : XmlNode) : Except String PrefixByte := do
  let ms ← getAttr x "mandatory"
  let is_mandatory ← parseBoolStrict ms
  let bs ← getAttr x "byte"
  let byte ← pyInt bs 16
  let _ ← pyAssert (decide (byte = 0x66 ∨ byte = 0xF2 ∨ byte = 0xF3)) "AssertionError: prefix byte"
  Except.ok { byte := byte, is_mandatory := is_mandatory }

/-- Resolution of `rex.R` (lines 593-602). -/
def rexFieldR (ops : List Operand) (x : XmlNode) : Except String BitSource :=
  if hasAttr x "R" then do
    let _ ← pyAssert (!hasAttr x "R-operand-number") "AssertionError: R"
    let s ← getAttr x "R"
    readLitOrIgnored s
  else do
    let _ ← pyAssert (hasAttr x "R-operand-number") "AssertionError: R-operand-number"
    let s ← getAttr x "R-operand-number"
    let j ← readOperandRef ops s
    Except.ok (BitSource.opRef j)

/-- Resolution of `rex.B` (lines 604-621). -/
def rexFieldB (ops : List Operand) (x : XmlNode) : Except String BitSource :=
  if hasAttr x "B" then do
    let _ ← pyAssert (!hasAttr x "B-operand-number") "AssertionError: B"
    let _ ← pyAssert (!hasAttr x "BX-operand-number") "AssertionError: B"
    let s ← getAttr x "B"
    readLitOrIgnored s
  else if hasAttr x "B-operand-number" then do
    let _ ← pyAssert (!hasAttr x "B") "AssertionError: B-operand-number"
    let _ ← pyAssert (!hasAttr x "BX-operand-number") "AssertionError: B-operand-number"
    let s ← getAttr x "B-operand-number"
    let j ← readOperandRef ops s
    Except.ok (BitSource.opRef j)
  else do
    let _ ← pyAssert (hasAttr x "BX-operand-number") "AssertionError: BX-operand-number"
    let _ ← pyAssert (!hasAttr x "B-operand-number") "AssertionError: BX"
    let _ ← pyAssert (!hasAttr x "B") "AssertionError: BX"
    let _ ← pyAssert (!hasAttr x "X") "AssertionError: BX"
    let s ← getAttr x "BX-operand-number"
    let j ← readOperandRef ops s
    Except.ok (BitSource.opRef j)

/-- Resolution of `rex.X` (lines 623-632). -/
def rexFieldX (ops : List Operand) (x : XmlNode) : Except String BitSource :=
  if hasAttr x "X" then do
    let _ ← pyAssert (!hasAttr x "BX-operand-number") "AssertionError: X"
    let s ← getAttr x "X"
    readLitOrIgnored s
  else do
    let _ ← pyAssert (hasAttr x "BX-operand-number") "AssertionError: X else"
    let s ← getAttr x "BX-operand-number"
    let j ← readOperandRef ops s
    Except.ok (BitSource.opRef j)

/-- The `REX` branch of the component dispatch (lines 580-633). -/
def readREX (ops : List Operand) (x : XmlNode) : Except String REX := do
  let _ ← pyAssert (hasAttr x "mandatory") "AssertionError: mandatory"
  let ms ← getAttr x "mandatory"
  let is_mandatory ← parseBoolStrict ms
  let _ ← pyAssert (hasAttr x "W") "AssertionError: W"
  let ws ← getAttr x "W"
  let w ← readLitOrIgnored ws
  let r ← rexFieldR ops x
  let b ← rexFieldB ops x
  let xbit ← rexFieldX ops x
  Except.ok { is_mandatory := is_mandatory, W := w, R := r, X := xbit, B := b }

/-- Resolution of `vex.R` (lines 654-663).  In the literal branch the source
computes `int(rex.R)` from the function-scoped `rex` variable — not from the
declared attribute string. -/
def vexFieldR (ops : List Operand) (st : Option REX) (x : XmlNode) : Except String BitSource :=
  if hasAttr x "R" then do
    let _ ← pyAssert (!hasAttr x "R-operand-number") "AssertionError: R"
    let s ← getAttr x "R"
    if s == "ignored" then Except.ok BitSource.ignored
    else do
      let n ← pyIntOfRexBit st (fun r => r.R)
      Except.ok (BitSource.lit n)
  else do
    let _ ← pyAssert (hasAttr x "R-operand-number") "AssertionError: R-operand-number"
    let s ← getAttr x "R-operand-number"
    let j ← readOperandRef ops s
    Except.ok (BitSource.opRef j)

/-- Resolution of `vex.B` (lines 665-682); the literal branch computes
`int(rex.B)`, as in `vexFieldR`. -/
def vexFieldB (ops : List Operand) (st : Option REX) (x : XmlNode) : Except String BitSource :=
  if hasAttr x "B" then do
    let _ ← pyAssert (!hasAttr x "B-operand-number") "AssertionError: B"
    let _ ← pyAssert (!hasAttr x "BX-operand-number") "AssertionError: B"
    let s ← getAttr x "B"
    if s == "ignored" then Except.ok BitSource.ignored
    else do
      let n ← pyIntOfRexBit st (fun r => r.B)
      Except.ok (BitSource.lit n)
  else if hasAttr x "B-operand-number" then do
    let _ ← pyAssert (!hasAttr x "B") "AssertionError: B-operand-number"
    let _ ← pyAssert (!hasAttr x "BX-operand-number") "AssertionError: B-operand-number"
    let s ← getAttr x "B-operand-number"
    let j ← readOperandRef ops s
    Except.ok (BitSource.opRef j)
  else do
    let _ ← pyAssert (hasAttr x "BX-operand-number") "AssertionError: BX-operand-number"
    let _ ← pyAssert (!hasAttr x "B-operand-number") "AssertionError: BX"
    let _ ← pyAssert (!hasAttr x "B") "AssertionError: BX"
    let _ ← pyAssert (!hasAttr x "X") "AssertionError: BX"
    let s ← getAttr x "BX-operand-number"
    let j ← readOperandRef ops s
    Except.ok (BitSource.opRef j)

/-- Resolution of `vex.X` (lines 684-693): the literal branch uses the VEX
declaration's own attribute (`int(vex.X)`). -/
def vexFieldX (ops : List Operand) (x : XmlNode) : Except String BitSource :=
  if hasAttr x "X" then do
    let _ ← pyAssert (!hasAttr x "BX-operand-number") "AssertionError: X"
    let s ← getAttr x "X"
    readLitOrIgnored s
  else do
    let _ ← pyAssert (hasAttr x "BX-operand-number") "AssertionError: X else"
    let s ← getAttr x "BX-operand-number"
    let j ← readOperandRef ops s
    Except.ok (BitSource.opRef j)

/-- Resolution of `vex.vvvv` (lines 695-702). -/
def vexFieldVvvv (ops : List Operand) (x : XmlNode) : Except String BitSource :=
  if hasAttr x "vvvv" then do
    let _ ← pyAssert (!hasAttr x "vvvv-operand-number") "AssertionError: vvvv"
    let s ← getAttr x "vvvv"
    let _ ← pyAssert (s == "1111") "AssertionError: vvvv value"
    let n ← pyInt s 2
    Except.ok (BitSource.lit n)
  else do
    let _ ← pyAssert (hasAttr x "vvvv-operand-number") "AssertionError: vvvv-operand-number"
    let s ← getAttr x "vvvv-operand-number"
    let j ← readOperandRef ops s
    Except.ok (BitSource.opRef j)

/-- The `VEX` branch of the component dispatch (lines 634-704). -/
def readVEX (ops : List Operand) (st : Option REX) (x : XmlNode) : Except String VEX := do
  let _ ← pyAssert (hasAttr x "W") "AssertionError: W"
  let ws ← getAttr x "W"
  let w ← readLitOrIgnored ws
  let _ ← pyAssert (hasAttr x "L") "AssertionError: L"
  let ls ← getAttr x "L"
  let l ← readLitOrIgnored ls
  let mms ← getAttr x "m-mmmm"
  let mmmmm ← pyInt mms 2
  let pps ← getAttr x "pp"
  let pp ← pyInt pps 2
  let r ← vexFieldR ops st x
  let b ← vexFieldB ops st x
  let xbit ← vexFieldX ops x
  let vvvv ← vexFieldVvvv ops x
  Except.ok { mmmmm := mmmmm, pp := pp, W := w, L := l, R := r, X := xbit, B := b, vvvv := vvvv }

/-- The `Opcode` branch of the component dispatch (lines 705-709). -/
def readOpcode (ops : List Operand) (x : XmlNode) : Except String Opcode := do
  let bs ← getAttr x "byte"
  let byte ← pyInt bs 16
  if hasAttr x "addend-operand-number" then do
    let s ← getAttr x "addend-operand-number"
    let j ← readOperandRef ops s
    Except.ok { byte := byte, addend := some j }
  else
    Except.ok { byte := byte, addend := none }

/-- Resolution of `modrm.mode` (lines 712-718). -/
def modrmFieldMode (ops : List Operand) (x : XmlNode) : Except String BitSource :=
  if hasAttr x "mode" then do
    let s ← getAttr x "mode"
    let m ← pyInt s 2
    let _ ← pyAssert (decide (m = 3)) "AssertionError: mode"
    Except.ok (BitSource.lit m)
  else do
    let _ ← pyAssert (hasAttr x "mode-operand-number") "AssertionError: mode-operand-number"
    let ms ← getAttr x "mode-operand-number"
    let rs ← getAttr x "rm-operand-number"
    let _ ← pyAssert (ms == rs) "AssertionError: mode-rm mismatch"
    let j ← readOperandRef ops ms
    Except.ok (BitSource.opRef j)

/-- Resolution of `modrm.reg` (lines 719-724). -/
def modrmFieldReg (ops : List Operand) (x : XmlNode) : Except String BitSource :=
  if hasAttr x "reg" then do
    let s ← getAttr x "reg"
    let r ← pyInt s 10
    let _ ← pyAssert (decide (0 ≤ r ∧ r ≤ 7)) "AssertionError: reg range"
    Except.ok (BitSource.lit r)
  else do
    let _ ← pyAssert (hasAttr x "reg-operand-number") "AssertionError: reg-operand-number"
    let s ← getAttr x "reg-operand-number"
    let j ← readOperandRef ops s
    Except.ok (BitSource.opRef j)

/-- The `ModRM` branch of the component dispatch (lines 710-727). -/
def readModRM (ops : List Operand) (x : XmlNode) : Except String ModRM := do
  let mode ← modrmFieldMode ops x
  let reg ← modrmFieldReg ops x
  let _ ← pyAssert (hasAttr x "rm-operand-number") "AssertionError: rm-operand-number"
  let s ← getAttr x "rm-operand-number"
  let rm ← readOperandRef ops s
  Except.ok { mode := mode, reg := reg, rm := rm }

/-- The `Immediate` branch of the component dispatch (lines 728-755). -/
def readImmediate (ops : List Operand) (x : XmlNode) : Except String Component := do
  let _ ← pyAssert (hasAttr x "size") "AssertionError: size"
  let ss ← getAttr x "size"
  let size ← pyInt ss 10
  let _ ← pyAssert (decide (size = 1 ∨ size = 2 ∨ size = 4 ∨ size = 8)) "AssertionError: immediate size"
  if size == 1 then
    if hasAttr x "operand-number" then do
      let s ← getAttr x "operand-number"
      let j ← readOperandRef ops s
      Except.ok (Component.immediateByte j)
    else
      Except.error "AssertionError: False"
  else if size == 2 then do
    let _ ← pyAssert (hasAttr x "operand-number") "AssertionError: operand-number"
    let s ← getAttr x "operand-number"
    let j ← readOperandRef ops s
    Except.ok (Component.immediateWord j)
  else if size == 4 then do
    let _ ← pyAssert (hasAttr x "operand-number") "AssertionError: operand-number"
    let s ← getAttr x "operand-number"
    let j ← readOperandRef ops s
    Except.ok (Component.immediateDWord j)
  else if size == 8 then do
    let _ ← pyAssert (hasAttr x "operand-number") "AssertionError: operand-number"
    let s ← getAttr x "operand-number"
    let j ← readOperandRef ops s
    Except.ok (Component.immediateQWord j)
  else
    Except.error "AssertionError: False"

/-- The `CodeOffset` branch of the component dispatch (lines 756-768). -/
def readCodeOffset (ops : List Operand) (x : XmlNode) : Except String Component := do
  let ss ← getAttr x "size"
  let size ← pyInt ss 10
  let _ ← pyAssert (decide (size = 1 ∨ size = 4)) "AssertionError: code offset size"
  if size == 1 then do
    let s ← getAttr x "operand-number"
    let j ← readOperandRef ops s
    Except.ok (Component.codeOffset8 j)
  else if size == 4 then do
    let s ← getAttr x "operand-number"
    let j ← readOperandRef ops s
    Except.ok (Component.codeOffset32 j)
  else
    Except.error "AssertionError: False"

/-- The `DataOffset` branch of the component dispatch (lines 769-781). -/
def readDataOffset (ops : List Operand) (x : XmlNode) : Except String Component := do
  let ss ← getAttr x "size"
  let size ← pyInt ss 10
  let _ ← pyAssert (decide (size = 4 ∨ size = 8)) "AssertionError: data offset size"
  if size == 4 then do
    let s ← getAttr x "operand-number"
    let j ← readOperandRef ops s
    Except.ok (Component.dataOffset32 j)
  else if size == 8 then do
    let s ← getAttr x "operand-number"
    let j ← readOperandRef ops s
    Except.ok (Component.dataOffset64 j)
  else
    Except.error "AssertionError: False"

/-- The recognized component tags of the dispatch. -/
def isKnownTag (t : String) : Bool :=
  t == "Prefix" || t == "REX" || t == "VEX" || t == "Opcode" || t == "ModRM" ||
  t == "Immediate" || t == "CodeOffset" || t == "DataOffset"

/-- One step of the component dispatch (lines 573-783): `none` means the tag
was unrecognized, reported and skipped.  The returned state is the
function-scoped `rex` variable, rebound by the `REX` branch. -/
def readComponent (ops : List Operand) (st : Option REX) (x : XmlNode) :
    Except String (Option Component × Option REX) :=
  if x.tag == "Prefix" then do
    let p ← readPrefix x
    Except.ok (some (Component.prefixByte p), st)
  else if x.tag == "REX" then do
    let r ← readREX ops x
    Except.ok (some (Component.rex r), some r)
  else if x.tag == "VEX" then do
    let v ← readVEX ops st x
    Except.ok (some (Component.vex v), st)
  else if x.tag == "Opcode" then do
    let o ← readOpcode ops x
    Except.ok (some (Component.opcode o), st)
  else if x.tag == "ModRM" then do
    let m ← readModRM ops x
    Except.ok (some (Component.modRM m), st)
  else if x.tag == "Immediate" then do
    let c ← readImmediate ops x
    Except.ok (some c, st)
  else if x.tag == "CodeOffset" then do
    let c ← readCodeOffset ops x
    Except.ok (some c, st)
  else if x.tag == "DataOffset" then do
    let c ← readDataOffset ops x
    Except.ok (some c, st)
  else
    Except.ok (none, st)

/-- The component loop of one encoding. -/
def readEncodingComponents (ops : List Operand) :
    List XmlNode → Option REX → Except String (List Component × Option REX)
  | [], st => Except.ok ([], st)
  | x :: rest, st => do
      let (c?, st') ← readComponent ops st x
      let (cs, st'') ← readEncodingComponents ops rest st'
      match c? with
      | some c => Except.ok (c :: cs, st'')
      | none => Except.ok (cs, st'')

/-- The encoding loop of one form (`findall("Encodings/Encoding")`). -/
def readEncodings (ops : List Operand) :
    List XmlNode → Option REX → Except String (List Encoding × Option REX)
  | [], st => Except.ok ([], st)
  | x :: rest, st => do
      let (cs, st') ← readEncodingComponents ops x.children st
      let (more, st'') ← readEncodings ops rest st'
      Except.ok ({ components := cs } :: more, st'')

/-- The operand loop of one form (lines 557-561). -/
def readOperands : List XmlNode → Except String (List Operand)
  | [] => Except.ok []
  | x :: rest => do
      let t ← getAttr x "type"
      let inp ← parseBoolStrict (attrDefault x "input" "false")
      let outp ← parseBoolStrict (attrDefault x "output" "false")
      let more ← readOperands rest
      Except.ok ({ type := t, is_input := inp, is_output := outp } :: more)

/-- The implicit-operand loop (lines 562-566). -/
def readImplicits : List XmlNode → List String → List String →
    Except String (List String × List String)
  | [], ins, outs => Except.ok (ins, outs)
  | x :: rest, ins, outs => do
      let inv ← getAttr x "input"
      let ins' ← if inv == "true" then do
          let idv ← getAttr x "id"
          Except.ok (setAdd ins idv)
        else Except.ok ins
      let outv ← getAttr x "output"
      let outs' ← if outv == "true" then do
          let idv ← getAttr x "id"
          Except.ok (setAdd outs idv)
        else Except.ok outs
      readImplicits rest ins' outs'

/-- The ISA-extension loop (lines 567-570). -/
def readISA : List XmlNode → Except String (List String)
  | [] => Except.ok []
  | x :: rest => do
      let _ ← pyAssert (hasAttr x "id") "AssertionError: id"
      let idv ← getAttr x "id"
      let more ← readISA rest
      Except.ok (idv :: more)

/-- One form node (lines 552-785): the `gas-name` attribute is read with a
bracket access (mandatory), the other display/mode attributes with `.get`. -/
def readForm (instrName : String) (x : XmlNode) (st : Option REX) :
    Except String (InstructionForm × Option REX) := do
  let gas ← getAttr x "gas-name"
  let go := lookupAttr x "go-name"
  let mmx := lookupAttr x "mmx-mode"
  let xmm := lookupAttr x "xmm-mode"
  let ops ← readOperands (findall2 x "Operands" "Operand")
  let (impIn, impOut) ← readImplicits (findall2 x "Operands" "ImplicitOperands") [] []
  let isa ← readISA (findall2 x "ISA" "Extension")
  let (encs, st') ← readEncodings ops (findall2 x "Encodings" "Encoding") st
  Except.ok ({ name := instrName, gas_name := some gas, go_name := go,
               mmx_mode := mmx, xmm_mode := xmm, operands := ops,
               implicit_inputs := impIn, implicit_outputs := impOut,
               isa_extensions := isa, encodings := encs }, st')

/-- The form loop of one instruction (every child node is treated as a
form). -/
def readForms (instrName : String) :
    List XmlNode → Option REX → Except String (List InstructionForm × Option REX)
  | [], st => Except.ok ([], st)
  | x :: rest, st => do
      let (f, st') ← readForm instrName x st
      let (more, st'') ← readForms instrName rest st'
      Except.ok (f :: more, st'')

/-- The instruction loop (lines 547-787). -/
def readInstructions : List XmlNode → Option REX → Except String (List Instruction × Option REX)
  | [], st => Except.ok ([], st)
  | x :: rest, st => do
      let _ ← pyAssert (x.tag == "Instruction") "AssertionError: Instruction"
      let nm ← getAttr x "name"
      let summary ← getAttr x "summary"
      let (forms, st') ← readForms nm x.children st
      let (more, st'') ← readInstructions rest st'
      Except.ok ({ name := nm, summary := summary, forms := forms } :: more, st'')

/-- `read_instruction_set` (lines 540-788) on an already-parsed document
tree: validates the root, then loads every instruction.  The second state
component (the `rex` variable) is discarded at the end, as in the source. -/
def read_instruction_set (root : XmlNode) : Except String (List Instruction) := do
  let _ ← pyAssert (root.tag == "InstructionSet") "AssertionError: InstructionSet"
  let nm ← getAttr root "name"
  let _ ← pyAssert (nm == "x86-64") "AssertionError: x86-64"
  let (instrs, _) ← readInstructions root.children none
  Except.ok instrs

/-! ### Concrete schema documents used to settle the claims -/

/-- Shorthand XML-node constructor. -/
def nd (t : String) (a : List (String × String)) (c : List XmlNode) : XmlNode :=
  XmlNode.mk t a c

/-- A document whose single encoding declares a REX component (`R="1"`,
`B="1"`) followed by a VEX component declaring the explicit literals `R="0"`
and `B="0"`. -/
def c1doc : XmlNode :=
  nd "InstructionSet" [("name", "x86-64")]
    [nd "Instruction" [("name", "VFOO"), ("summary", "test")]
      [nd "IF" [("gas-name", "vfoo")]
        [nd "Encodings" []
          [nd "Encoding" []
            [nd "REX" [("mandatory", "false"), ("W", "0"), ("R", "1"), ("X", "0"), ("B", "1")] [],
             nd "VEX" [("W", "0"), ("L", "0"), ("m-mmmm", "00001"), ("pp", "01"),
                       ("R", "0"), ("X", "0"), ("B", "0"), ("vvvv", "1111")] []]]]]]

/-- The VEX component the loader actually builds from `c1doc`: its `R` and
`B` are the values of the preceding REX component, not the declared
literals. -/
def c1vexComp : VEX :=
  { mmmmm := 1, pp := 1, W := BitSource.lit 0, L := BitSource.lit 0,
    R := BitSource.lit 1, X := BitSource.lit 0, B := BitSource.lit 1,
    vvvv := BitSource.lit 15 }

/-- The full model the loader returns for `c1doc`. -/
def c1model : List Instruction :=
  [{ name := "VFOO", summary := "test",
     forms := [{ name := "VFOO", gas_name := some "vfoo", go_name := none,
                 mmx_mode := none, xmm_mode := none, operands := [],
                 implicit_inputs := [], implicit_outputs := [], isa_extensions := [],
                 encodings := [{ components :=
                   [Component.rex { is_mandatory := false, W := BitSource.lit 0,
                                    R := BitSource.lit 1, X := BitSource.lit 0,
                                    B := BitSource.lit 1 },
                    Component.vex c1vexComp] }] }] }]

/-- A document whose single encoding declares an Opcode component with the
three-hex-digit byte attribute `"100"`. -/
def c2doc : XmlNode :=
  nd "InstructionSet" [("name", "x86-64")]
    [nd "Instruction" [("name", "FOO"), ("summary", "test")]
      [nd "IF" [("gas-name", "foo")]
        [nd "Encodings" []
          [nd "Encoding" [] [nd "Opcode" [("byte", "100")] []]]]]]

/-- The model the loader returns for `c2doc`: the opcode byte is 256. -/
def c2model : List Instruction :=
  [{ name := "FOO", summary := "test",
     forms := [{ name := "FOO", gas_name := some "foo", go_name := none,
                 mmx_mode := none, xmm_mode := none, operands := [],
                 implicit_inputs := [], implicit_outputs := [], isa_extensions := [],
                 encodings := [{ components :=
                   [Component.opcode { byte := 256, addend := none }] }] }] }]

/-- A document whose single encoding declares a VEX component with
`m-mmmm="00100"` (value 4, outside the documented set). -/
def c3doc : XmlNode :=
  nd "InstructionSet" [("name", "x86-64")]
    [nd "Instruction" [("name", "VBAR"), ("summary", "test")]
      [nd "IF" [("gas-name", "vbar")]
        [nd "Operands" [] [nd "Operand" [("type", "r32"), ("input", "true")] []],
         nd "Encodings" []
          [nd "Encoding" []
            [nd "VEX" [("W", "0"), ("L", "0"), ("m-mmmm", "00100"), ("pp", "01"),
                       ("R-operand-number", "0"), ("B-operand-number", "0"),
                       ("X", "0"), ("vvvv", "1111")] []]]]]]

/-- The model the loader returns for `c3doc`: `mmmmm = 4`. -/
def c3model : List Instruction :=
  [{ name := "VBAR", summary := "test",
     forms := [{ name := "VBAR", gas_name := some "vbar", go_name := none,
                 mmx_mode := none, xmm_mode := none,
                 operands := [{ type := "r32", is_input := true, is_output := false }],
                 implicit_inputs := [], implicit_outputs := [], isa_extensions := [],
                 encodings := [{ components :=
                   [Component.vex { mmmmm := 4, pp := 1, W := BitSource.lit 0,
                                    L := BitSource.lit 0, R := BitSource.opRef 0,
                                    X := BitSource.lit 0, B := BitSource.opRef 0,
                                    vvvv := BitSource.lit 15 }] }] }] }]

/-- A document whose single encoding declares an Opcode component whose
addend attribute names operand position `-1`, on a form with one operand. -/
def c4doc : XmlNode :=
  nd "InstructionSet" [("name", "x86-64")]
    [nd "Instruction" [("name", "BAZ"), ("summary", "test")]
      [nd "IF" [("gas-name", "baz")]
        [nd "Operands" [] [nd "Operand" [("type", "r32"), ("input", "true")] []],
         nd "Encodings" []
          [nd "Encoding" []
            [nd "Opcode" [("byte", "C3"), ("addend-operand-number", "-1")] []]]]]]

/-- The model the loader returns for `c4doc`: the negative index resolved to
position 0 and the load succeeded. -/
def c4model : List Instruction :=
  [{ name := "BAZ", summary := "test",
     forms := [{ name := "BAZ", gas_name := some "baz", go_name := none,
                 mmx_mode := none, xmm_mode := none,
                 operands := [{ type := "r32", is_input := true, is_output := false }],
                 implicit_inputs := [], implicit_outputs := [], isa_extensions := [],
                 encodings := [{ components :=
                   [Component.opcode { byte := 195, addend := some 0 }] }] }] }]

/-- A document whose single form omits the `gas-name` attribute (the
`go-name` attribute is present). -/
def c9doc : XmlNode :=
  nd "InstructionSet" [("name", "x86-64")]
    [nd "Instruction" [("name", "QUX"), ("summary", "test")]
      [nd "IF" [("go-name", "qux")] []]]

/-! ### Claim theorems -/

/-- C1: the claim states that a VEX component declared with explicit literal
`R`/`B` attributes resolves those fields to the declared literals,
independently of any REX component.  The code instead stores `int(rex.R)` /
`int(rex.B)` read from the function-scoped `rex` variable: on `c1doc`, whose
VEX declares `R="0"` and `B="0"` after a REX with `R="1"`, `B="1"`, the
returned model's VEX has `R = 1` and `B = 1`. -/
theorem vex_literal_R_B_uses_preceding_REX :
    read_instruction_set c1doc = Except.ok c1model ∧
    lookupAttr (nd "VEX" [("W", "0"), ("L", "0"), ("m-mmmm", "00001"), ("pp", "01"),
                          ("R", "0"), ("X", "0"), ("B", "0"), ("vvvv", "1111")] []) "R"
      = some "0" ∧
    c1vexComp.R = BitSource.lit 1 ∧ c1vexComp.B = BitSource.lit 1 ∧
    c1vexComp.R ≠ BitSource.lit 0 ∧ c1vexComp.B ≠ BitSource.lit 0 := by
  refine ⟨rfl, rfl, rfl, rfl, by decide, by decide⟩

/-- C2: the claim states that every Opcode in a returned model has its byte
in `[0, 255]`.  The loader performs no range check: on `c2doc`, whose Opcode
declares `byte="100"` (hex), the load succeeds and the model contains an
Opcode with byte 256. -/
theorem opcode_byte_out_of_range_accepted :
    read_instruction_set c2doc = Except.ok c2model ∧ ¬((256 : Int) ≤ 255) := by
  refine ⟨rfl, by decide⟩

/-- C3: the claim states that every VEX in a returned model has
`mmmmm ∈ {1, 2, 3}` and that other declarations are rejected.  The loader
performs no such check: on `c3doc`, whose VEX declares `m-mmmm="00100"`, the
load succeeds and the model contains a VEX with `mmmmm = 4`. -/
theorem vex_mmmmm_out_of_range_accepted :
    read_instruction_set c3doc = Except.ok c3model ∧
    ¬((4 : Int) = 1 ∨ (4 : Int) = 2 ∨ (4 : Int) = 3) := by
  refine ⟨rfl, by decide⟩

/-- C4 counterexample: the claim states that every operand index that is not
a valid position — negative ones included — aborts the load.  On `c4doc`,
whose Opcode addend names position `-1` on a one-operand form, the load
succeeds (Python indexing resolves `-1` from the end). -/
theorem negative_operand_index_accepted :
    read_instruction_set c4doc = Except.ok c4model := rfl

/-- C9 counterexample: the claim states that a form node lacking an
alternate-assembler display-name attribute still loads.  For the
GNU-assembler name the loader uses a bracket access: on `c9doc`, whose form
has no `gas-name`, the load aborts with a `KeyError`. -/
theorem missing_gas_name_fails :
    read_instruction_set c9doc = Except.error "KeyError: gas-name" := rfl

/-- Successful bind in `Except` splits into a successful first step and a
successful continuation. -/
theorem exBind_ok {α β : Type} {e : Except String α} {f : α → Except String β} {b : β}
    (h : (e >>= f) = Except.ok b) : ∃ a, e = Except.ok a ∧ f a = Except.ok b := by
  cases e with
  | error s => exact absurd h (by simp [Bind.bind, Except.bind])
  | ok a => exact ⟨a, rfl, by simpa [Bind.bind, Except.bind] using h⟩

/-- A component declaration whose tag is not one of the eight recognized ones
is skipped and leaves the `rex` state unchanged. -/
theorem readComponent_unknown (ops : List Operand) (st : Option REX) (x : XmlNode)
    (h : isKnownTag x.tag = false) : readComponent ops st x = Except.ok (none, st) := by
  unfold isKnownTag at h
  simp only [Bool.or_eq_false_iff] at h
  obtain ⟨⟨⟨⟨⟨⟨⟨h1, h2⟩, h3⟩, h4⟩, h5⟩, h6⟩, h7⟩, h8⟩ := h
  unfold readComponent
  simp [h1, h2, h3, h4, h5, h6, h7, h8]

/-- C8: an unrecognized component tag is non-fatal: the component loop of an
encoding behaves exactly as if the unrecognized declarations were absent, so
a successful load yields the components of the recognized declarations, in
their original order, and an error arises exactly when one of the recognized
declarations raises it. -/
theorem unknown_tag_skipped (ops : List Operand) (xs : List XmlNode) (st : Option REX) :
    readEncodingComponents ops xs st =
      readEncodingComponents ops (xs.filter (fun x => isKnownTag x.tag)) st := by
  induction xs generalizing st with
  | nil => rfl
  | cons x rest ih =>
      by_cases h : isKnownTag x.tag
      · simp only [List.filter_cons, h, if_true]
        show readEncodingComponents ops (x :: rest) st =
          readEncodingComponents ops (x :: rest.filter (fun x => isKnownTag x.tag)) st
        simp only [readEncodingComponents]
        simp only [ih]
      · have hx : readComponent ops st x = Except.ok (none, st) :=
          readComponent_unknown ops st x (by simpa using h)
        simp only [List.filter_cons, h, if_false, Bool.false_eq_true]
        show readEncodingComponents ops (x :: rest) st =
          readEncodingComponents ops (rest.filter (fun x => isKnownTag x.tag)) st
        rw [← ih]
        simp only [readEncodingComponents, hx]
        cases hres : readEncodingComponents ops rest st with
        | error e => simp [Bind.bind, Except.bind, hres]
        | ok p => simp [Bind.bind, Except.bind, hres, Pure.pure, Except.pure]

/-- Attribute access that succeeds returns the stored attribute value. -/
theorem getAttr_ok {x : XmlNode} {k s : String} (h : getAttr x k = Except.ok s) :
    lookupAttr x k = some s := by
  unfold getAttr at h
  cases hlk : lookupAttr x k <;> rw [hlk] at h <;> simp_all

/-- A passed assertion had a true condition. -/
theorem pyAssert_ok {b : Bool} {m : String} {u : Unit}
    (h : pyAssert b m = Except.ok u) : b = true := by
  unfold pyAssert at h
  cases b <;> simp_all

/-- A successful `readREX` resolved its `B` and `X` fields through
`rexFieldB` and `rexFieldX`. -/
theorem readREX_ok_B_X {ops : List Operand} {x : XmlNode} {r : REX}
    (h : readREX ops x = Except.ok r) :
    rexFieldB ops x = Except.ok r.B ∧ rexFieldX ops x = Except.ok r.X := by
  unfold readREX at h
  obtain ⟨_, _, h⟩ := exBind_ok h
  obtain ⟨ms, _, h⟩ := exBind_ok h
  obtain ⟨b, _, h⟩ := exBind_ok h
  obtain ⟨_, _, h⟩ := exBind_ok h
  obtain ⟨ws, _, h⟩ := exBind_ok h
  obtain ⟨w, _, h⟩ := exBind_ok h
  obtain ⟨rr, _, h⟩ := exBind_ok h
  obtain ⟨bb, h8, h⟩ := exBind_ok h
  obtain ⟨xx, h9, h⟩ := exBind_ok h
  injection h with h
  subst h
  exact ⟨h8, h9⟩

/-- With a combined `BX-operand-number` attribute, a successful `rexFieldB`
resolves to the operand at the combined index. -/
theorem rexFieldB_bx {ops : List Operand} {x : XmlNode} {bs : BitSource}
    (hbx : hasAttr x "BX-operand-number" = true)
    (h : rexFieldB ops x = Except.ok bs) :
    ∃ s j, lookupAttr x "BX-operand-number" = some s ∧
      readOperandRef ops s = Except.ok j ∧ bs = BitSource.opRef j := by
  unfold rexFieldB at h
  by_cases hB : hasAttr x "B"
  · simp only [hB, if_true] at h
    obtain ⟨_, _, h⟩ := exBind_ok h
    obtain ⟨u, hu, h⟩ := exBind_ok h
    have := pyAssert_ok hu
    rw [hbx] at this
    simp at this
  · by_cases hBop : hasAttr x "B-operand-number"
    · simp only [hB, hBop, if_true, Bool.false_eq_true, if_false] at h
      obtain ⟨_, _, h⟩ := exBind_ok h
      obtain ⟨u, hu, h⟩ := exBind_ok h
      have := pyAssert_ok hu
      rw [hbx] at this
      simp at this
    · simp only [hB, hBop, Bool.false_eq_true, if_false] at h
      obtain ⟨_, _, h⟩ := exBind_ok h
      obtain ⟨_, _, h⟩ := exBind_ok h
      obtain ⟨_, _, h⟩ := exBind_ok h
      obtain ⟨_, _, h⟩ := exBind_ok h
      obtain ⟨s, hs, h⟩ := exBind_ok h
      obtain ⟨j, hj, h⟩ := exBind_ok h
      injection h with h
      exact ⟨s, j, getAttr_ok hs, hj, h.symm⟩

/-- With a combined `BX-operand-number` attribute, a successful `rexFieldX`
resolves to the operand at the combined index. -/
theorem rexFieldX_bx {ops : List Operand} {x : XmlNode} {bs : BitSource}
    (hbx : hasAttr x "BX-operand-number" = true)
    (h : rexFieldX ops x = Except.ok bs) :
    ∃ s j, lookupAttr x "BX-operand-number" = some s ∧
      readOperandRef ops s = Except.ok j ∧ bs = BitSource.opRef j := by
  unfold rexFieldX at h
  by_cases hX : hasAttr x "X"
  · simp only [hX, if_true] at h
    obtain ⟨u, hu, h⟩ := exBind_ok h
    have := pyAssert_ok hu
    rw [hbx] at this
    simp at this
  · simp only [hX, Bool.false_eq_true, if_false] at h
    obtain ⟨_, _, h⟩ := exBind_ok h
    obtain ⟨s, hs, h⟩ := exBind_ok h
    obtain ⟨j, hj, h⟩ := exBind_ok h
    injection h with h
    exact ⟨s, j, getAttr_ok hs, hj, h.symm⟩

/-- A combined `BX` attribute together with a field-specific `B`,
`B-operand-number` or `X` attribute makes `rexFieldB` or `rexFieldX` fail. -/
theorem rexFieldBX_conflict {ops : List Operand} {x : XmlNode}
    (hbx : hasAttr x "BX-operand-number" = true)
    (hfield : hasAttr x "B" = true ∨ hasAttr x "B-operand-number" = true ∨
      hasAttr x "X" = true) :
    (∀ bs, rexFieldB ops x ≠ Except.ok bs) ∨ (∀ bs, rexFieldX ops x ≠ Except.ok bs) := by
  by_cases hB : hasAttr x "B"
  · left
    intro bs h
    unfold rexFieldB at h
    simp only [hB, if_true] at h
    obtain ⟨_, _, h⟩ := exBind_ok h
    obtain ⟨u, hu, h⟩ := exBind_ok h
    have := pyAssert_ok hu
    rw [hbx] at this
    simp at this
  · by_cases hBop : hasAttr x "B-operand-number"
    · left
      intro bs h
      unfold rexFieldB at h
      simp only [hB, hBop, if_true, Bool.false_eq_true, if_false] at h
      obtain ⟨_, _, h⟩ := exBind_ok h
      obtain ⟨u, hu, h⟩ := exBind_ok h
      have := pyAssert_ok hu
      rw [hbx] at this
      simp at this
    · have hX : hasAttr x "X" = true := by
        rcases hfield with h1 | h1 | h1
        · exact absurd h1 hB
        · exact absurd h1 hBop
        · exact h1
      right
      intro bs h
      unfold rexFieldX at h
      simp only [hX, if_true] at h
      obtain ⟨u, hu, h⟩ := exBind_ok h
      have := pyAssert_ok hu
      rw [hbx] at this
      simp at this

/-- With no `B`, no `B-operand-number` and no `BX-operand-number` attribute,
`rexFieldB` fails on its final fallback assertion. -/
theorem rexFieldB_absent {ops : List Operand} {x : XmlNode}
    (hB : hasAttr x "B" = false) (hBop : hasAttr x "B-operand-number" = false)
    (hbx : hasAttr x "BX-operand-number" = false) :
    ∀ bs, rexFieldB ops x ≠ Except.ok bs := by
  intro bs h
  unfold rexFieldB at h
  simp only [hB, hBop, Bool.false_eq_true, if_false] at h
  obtain ⟨u, hu, h⟩ := exBind_ok h
  have := pyAssert_ok hu
  rw [hbx] at this
  simp at this

/-- C7: a REX declaration with the combined `BX-operand-number` linking
attribute resolves both the `B` and the `X` bit source to the operand at the
combined index; a declaration that combines `BX-operand-number` with a
field-specific `B`, `B-operand-number` or `X` attribute fails, and so does a
declaration with none of the three `B` attribute families. -/
theorem rex_bx_combined_link_rules (ops : List Operand) (x : XmlNode) :
    (∀ r, hasAttr x "BX-operand-number" = true → readREX ops x = Except.ok r →
       ∃ j, r.B = BitSource.opRef j ∧ r.X = BitSource.opRef j) ∧
    (hasAttr x "BX-operand-number" = true →
       (hasAttr x "B" = true ∨ hasAttr x "B-operand-number" = true ∨
         hasAttr x "X" = true) →
       ∀ r, readREX ops x ≠ Except.ok r) ∧
    (hasAttr x "B" = false → hasAttr x "B-operand-number" = false →
       hasAttr x "BX-operand-number" = false →
       ∀ r, readREX ops x ≠ Except.ok r) := by
  refine ⟨?_, ?_, ?_⟩
  · intro r hbx h
    obtain ⟨hb, hx⟩ := readREX_ok_B_X h
    obtain ⟨s, j, hls, hrj, hbs⟩ := rexFieldB_bx hbx hb
    obtain ⟨s', j', hls', hrj', hbs'⟩ := rexFieldX_bx hbx hx
    rw [hls] at hls'
    injection hls' with hss
    subst hss
    rw [hrj] at hrj'
    injection hrj' with hjj
    subst hjj
    exact ⟨j, hbs, hbs'⟩
  · intro hbx hfield r h
    obtain ⟨hb, hx⟩ := readREX_ok_B_X h
    rcases @rexFieldBX_conflict ops x hbx hfield with hc | hc
    · exact hc _ hb
    · exact hc _ hx
  · intro hB hBop hbx r h
    obtain ⟨hb, _⟩ := readREX_ok_B_X h
    exact rexFieldB_absent hB hBop hbx _ hb

/-- C7 witness: on a two-operand form (memory, register) and a REX
declaration whose only `B`-family attribute is `BX-operand-number="0"`, both
`B` and `X` resolve to operand 0; adding an explicit `X="0"` literal on top
of the combined link makes the load fail. -/
theorem rex_bx_combined_link_rules_witness :
    (∃ j, ({ is_mandatory := false, W := BitSource.lit 0, R := BitSource.lit 0,
             X := BitSource.opRef 0, B := BitSource.opRef 0 } : REX).B = BitSource.opRef j ∧
          ({ is_mandatory := false, W := BitSource.lit 0, R := BitSource.lit 0,
             X := BitSource.opRef 0, B := BitSource.opRef 0 } : REX).X = BitSource.opRef j) ∧
    (∀ r, readREX [Operand.mk "m64" true false, Operand.mk "r32" true false]
        (nd "REX" [("mandatory", "false"), ("W", "0"), ("R", "0"), ("X", "0"),
                   ("BX-operand-number", "0")] []) ≠ Except.ok r) := by
  constructor
  · exact (rex_bx_combined_link_rules
      [Operand.mk "m64" true false, Operand.mk "r32" true false]
      (nd "REX" [("mandatory", "false"), ("W", "0"), ("R", "0"),
                 ("BX-operand-number", "0")] [])).1
      { is_mandatory := false, W := BitSource.lit 0, R := BitSource.lit 0,
        X := BitSource.opRef 0, B := BitSource.opRef 0 }
      (by decide) (by rfl)
  · exact (rex_bx_combined_link_rules
      [Operand.mk "m64" true false, Operand.mk "r32" true false]
      (nd "REX" [("mandatory", "false"), ("W", "0"), ("R", "0"), ("X", "0"),
                 ("BX-operand-number", "0")] [])).2.1
      (by decide) (Or.inr (Or.inr (by decide)))

/-- A successful `readModRM` resolved its fields through `modrmFieldMode`,
`modrmFieldReg` and the mandatory `rm-operand-number` reference. -/
theorem readModRM_ok_fields {ops : List Operand} {x : XmlNode} {m : ModRM}
    (h : readModRM ops x = Except.ok m) :
    modrmFieldMode ops x = Except.ok m.mode ∧ modrmFieldReg ops x = Except.ok m.reg ∧
    ∃ s, lookupAttr x "rm-operand-number" = some s ∧
      readOperandRef ops s = Except.ok m.rm := by
  unfold readModRM at h
  obtain ⟨mo, h1, h⟩ := exBind_ok h
  obtain ⟨rg, h2, h⟩ := exBind_ok h
  obtain ⟨_, _, h⟩ := exBind_ok h
  obtain ⟨s, hs, h⟩ := exBind_ok h
  obtain ⟨rm, hrm, h⟩ := exBind_ok h
  injection h with h
  subst h
  exact ⟨h1, h2, s, getAttr_ok hs, hrm⟩

/-- A literal `mode` attribute that passes resolution is exactly `0b11`. -/
theorem modrmFieldMode_lit {ops : List Operand} {x : XmlNode} {bs : BitSource}
    (hm : hasAttr x "mode" = true) (h : modrmFieldMode ops x = Except.ok bs) :
    bs = BitSource.lit 3 := by
  unfold modrmFieldMode at h
  simp only [hm, if_true] at h
  obtain ⟨s, hs, h⟩ := exBind_ok h
  obtain ⟨mval, hmv, h⟩ := exBind_ok h
  obtain ⟨u, hu, h⟩ := exBind_ok h
  have h3 : mval = 3 := by simpa using pyAssert_ok hu
  injection h with h
  rw [← h, h3]

/-- An operand-linked `mode` resolves through an attribute string equal to
the `rm-operand-number` attribute string. -/
theorem modrmFieldMode_linked {ops : List Operand} {x : XmlNode} {bs : BitSource}
    (hm : hasAttr x "mode" = false) (h : modrmFieldMode ops x = Except.ok bs) :
    ∃ s j, lookupAttr x "mode-operand-number" = some s ∧
      lookupAttr x "rm-operand-number" = some s ∧
      readOperandRef ops s = Except.ok j ∧ bs = BitSource.opRef j := by
  unfold modrmFieldMode at h
  simp only [hm, Bool.false_eq_true, if_false] at h
  obtain ⟨_, _, h⟩ := exBind_ok h
  obtain ⟨ms, hms, h⟩ := exBind_ok h
  obtain ⟨rs, hrs, h⟩ := exBind_ok h
  obtain ⟨u, hu, h⟩ := exBind_ok h
  have heq : ms = rs := eq_of_beq (pyAssert_ok hu)
  obtain ⟨j, hj, h⟩ := exBind_ok h
  injection h with h
  refine ⟨ms, j, getAttr_ok hms, ?_, hj, h.symm⟩
  rw [heq]
  exact getAttr_ok hrs

/-- C5: a ModRM declaration with a literal `mode` resolves it to `0b11` (any
other literal fails); with an operand-linked `mode` the declaration must name
the same operand position for `mode` and `rm` — on success `mode` references
exactly the `rm` operand, and differing attribute strings abort the load; a
literal `reg` lies in `[0, 7]`. -/
theorem modrm_mode_reg_rules (ops : List Operand) (x : XmlNode) :
    (∀ m, hasAttr x "mode" = true → readModRM ops x = Except.ok m →
       m.mode = BitSource.lit 3) ∧
    (∀ m, hasAttr x "mode" = false → readModRM ops x = Except.ok m →
       m.mode = BitSource.opRef m.rm) ∧
    (hasAttr x "mode" = false →
       lookupAttr x "mode-operand-number" ≠ lookupAttr x "rm-operand-number" →
       ∀ m, readModRM ops x ≠ Except.ok m) ∧
    (∀ m, hasAttr x "reg" = true → readModRM ops x = Except.ok m →
       ∃ r, m.reg = BitSource.lit r ∧ 0 ≤ r ∧ r ≤ 7) := by
  refine ⟨?_, ?_, ?_, ?_⟩
  · intro m hm h
    exact modrmFieldMode_lit hm (readModRM_ok_fields h).1
  · intro m hm h
    obtain ⟨hmo, _, s', hs', hrm'⟩ := readModRM_ok_fields h
    obtain ⟨s, j, hms, hrs, hj, hbs⟩ := modrmFieldMode_linked hm hmo
    rw [hrs] at hs'
    injection hs' with hss
    subst hss
    rw [hj] at hrm'
    injection hrm' with hjj
    rw [hbs, hjj]
  · intro hm hneq m h
    obtain ⟨hmo, _, _⟩ := readModRM_ok_fields h
    obtain ⟨s, j, hms, hrs, _, _⟩ := modrmFieldMode_linked hm hmo
    exact hneq (hms.trans hrs.symm)
  · intro m hr h
    have hrg := (readModRM_ok_fields h).2.1
    unfold modrmFieldReg at hrg
    simp only [hr, if_true] at hrg
    obtain ⟨s, hs, hrg⟩ := exBind_ok hrg
    obtain ⟨rval, hrv, hrg⟩ := exBind_ok hrg
    obtain ⟨u, hu, hrg⟩ := exBind_ok hrg
    have hb : 0 ≤ rval ∧ rval ≤ 7 := by simpa using pyAssert_ok hu
    injection hrg with hrg
    exact ⟨rval, hrg.symm, hb.1, hb.2⟩

/-- C5 witness: on a one-operand form, a ModRM declaration with `mode="11"`,
`reg="2"` and `rm-operand-number="0"` loads with `mode = 0b11` and a `reg`
literal inside `[0, 7]`. -/
theorem modrm_mode_reg_rules_witness :
    ({ mode := BitSource.lit 3, reg := BitSource.lit 2, rm := 0 } : ModRM).mode
        = BitSource.lit 3 ∧
    (∃ r, ({ mode := BitSource.lit 3, reg := BitSource.lit 2, rm := 0 } : ModRM).reg
        = BitSource.lit r ∧ 0 ≤ r ∧ r ≤ 7) := by
  constructor
  · exact (modrm_mode_reg_rules [Operand.mk "r32" true false]
      (nd "ModRM" [("mode", "11"), ("reg", "2"), ("rm-operand-number", "0")] [])).1
      _ (by decide) (by rfl)
  · exact (modrm_mode_reg_rules [Operand.mk "r32" true false]
      (nd "ModRM" [("mode", "11"), ("reg", "2"), ("rm-operand-number", "0")] [])).2.2.2
      _ (by decide) (by rfl)

/-- A successful `readImmediate` parsed a size of 1, 2, 4 or 8 and built
exactly the matching width variant. -/
theorem readImmediate_ok_char {ops : List Operand} {x : XmlNode} {c : Component}
    (h : readImmediate ops x = Except.ok c) :
    ∃ s n, lookupAttr x "size" = some s ∧ pyInt s 10 = Except.ok n ∧
      ((n = 1 ∧ ∃ j, c = Component.immediateByte j) ∨
       (n = 2 ∧ ∃ j, c = Component.immediateWord j) ∨
       (n = 4 ∧ ∃ j, c = Component.immediateDWord j) ∨
       (n = 8 ∧ ∃ j, c = Component.immediateQWord j)) := by
  unfold readImmediate at h
  obtain ⟨_, _, h⟩ := exBind_ok h
  obtain ⟨ss, hss, h⟩ := exBind_ok h
  obtain ⟨size, hsz, h⟩ := exBind_ok h
  obtain ⟨_, _, h⟩ := exBind_ok h
  refine ⟨ss, size, getAttr_ok hss, hsz, ?_⟩
  by_cases h1 : size == (1 : Int)
  · simp only [h1, if_true] at h
    by_cases hop : hasAttr x "operand-number"
    · simp only [hop, if_true] at h
      obtain ⟨s, hs, h⟩ := exBind_ok h
      obtain ⟨j, hj, h⟩ := exBind_ok h
      injection h with h
      exact Or.inl ⟨eq_of_beq h1, j, h.symm⟩
    · simp only [hop, Bool.false_eq_true, if_false] at h
      exact absurd h (by simp)
  · simp only [h1, Bool.false_eq_true, if_false] at h
    by_cases h2 : size == (2 : Int)
    · simp only [h2, if_true] at h
      obtain ⟨_, _, h⟩ := exBind_ok h
      obtain ⟨s, hs, h⟩ := exBind_ok h
      obtain ⟨j, hj, h⟩ := exBind_ok h
      injection h with h
      exact Or.inr (Or.inl ⟨eq_of_beq h2, j, h.symm⟩)
    · simp only [h2, Bool.false_eq_true, if_false] at h
      by_cases h4 : size == (4 : Int)
      · simp only [h4, if_true] at h
        obtain ⟨_, _, h⟩ := exBind_ok h
        obtain ⟨s, hs, h⟩ := exBind_ok h
        obtain ⟨j, hj, h⟩ := exBind_ok h
        injection h with h
        exact Or.inr (Or.inr (Or.inl ⟨eq_of_beq h4, j, h.symm⟩))
      · simp only [h4, Bool.false_eq_true, if_false] at h
        by_cases h8 : size == (8 : Int)
        · simp only [h8, if_true] at h
          obtain ⟨_, _, h⟩ := exBind_ok h
          obtain ⟨s, hs, h⟩ := exBind_ok h
          obtain ⟨j, hj, h⟩ := exBind_ok h
          injection h with h
          exact Or.inr (Or.inr (Or.inr ⟨eq_of_beq h8, j, h.symm⟩))
        · simp only [h8, Bool.false_eq_true, if_false] at h
          exact absurd h (by simp)

/-- A successful `readCodeOffset` parsed a size of 1 or 4 and built exactly
the matching width variant. -/
theorem readCodeOffset_ok_char {ops : List Operand} {x : XmlNode} {c : Component}
    (h : readCodeOffset ops x = Except.ok c) :
    ∃ s n, lookupAttr x "size" = some s ∧ pyInt s 10 = Except.ok n ∧
      ((n = 1 ∧ ∃ j, c = Component.codeOffset8 j) ∨
       (n = 4 ∧ ∃ j, c = Component.codeOffset32 j)) := by
  unfold readCodeOffset at h
  obtain ⟨ss, hss, h⟩ := exBind_ok h
  obtain ⟨size, hsz, h⟩ := exBind_ok h
  obtain ⟨_, _, h⟩ := exBind_ok h
  refine ⟨ss, size, getAttr_ok hss, hsz, ?_⟩
  by_cases h1 : size == (1 : Int)
  · simp only [h1, if_true] at h
    obtain ⟨s, hs, h⟩ := exBind_ok h
    obtain ⟨j, hj, h⟩ := exBind_ok h
    injection h with h
    exact Or.inl ⟨eq_of_beq h1, j, h.symm⟩
  · simp only [h1, Bool.false_eq_true, if_false] at h
    by_cases h4 : size == (4 : Int)
    · simp only [h4, if_true] at h
      obtain ⟨s, hs, h⟩ := exBind_ok h
      obtain ⟨j, hj, h⟩ := exBind_ok h
      injection h with h
      exact Or.inr ⟨eq_of_beq h4, j, h.symm⟩
    · simp only [h4, Bool.false_eq_true, if_false] at h
      exact absurd h (by simp)

/-- A successful `readDataOffset` parsed a size of 4 or 8 and built exactly
the matching width variant. -/
theorem readDataOffset_ok_char {ops : List Operand} {x : XmlNode} {c : Component}
    (h : readDataOffset ops x = Except.ok c) :
    ∃ s n, lookupAttr x "size" = some s ∧ pyInt s 10 = Except.ok n ∧
      ((n = 4 ∧ ∃ j, c = Component.dataOffset32 j) ∨
       (n = 8 ∧ ∃ j, c = Component.dataOffset64 j)) := by
  unfold readDataOffset at h
  obtain ⟨ss, hss, h⟩ := exBind_ok h
  obtain ⟨size, hsz, h⟩ := exBind_ok h
  obtain ⟨_, _, h⟩ := exBind_ok h
  refine ⟨ss, size, getAttr_ok hss, hsz, ?_⟩
  by_cases h4 : size == (4 : Int)
  · simp only [h4, if_true] at h
    obtain ⟨s, hs, h⟩ := exBind_ok h
    obtain ⟨j, hj, h⟩ := exBind_ok h
    injection h with h
    exact Or.inl ⟨eq_of_beq h4, j, h.symm⟩
  · simp only [h4, Bool.false_eq_true, if_false] at h
    by_cases h8 : size == (8 : Int)
    · simp only [h8, if_true] at h
      obtain ⟨s, hs, h⟩ := exBind_ok h
      obtain ⟨j, hj, h⟩ := exBind_ok h
      injection h with h
      exact Or.inr ⟨eq_of_beq h8, j, h.symm⟩
    · simp only [h8, Bool.false_eq_true, if_false] at h
      exact absurd h (by simp)

/-- C6: width-keyed dispatch is exhaustive and exclusive.  A successful
Immediate declaration has size 1/2/4/8 and yields exactly the matching
Byte/Word/DWord/QWord variant; CodeOffset sizes 1/4 yield exactly the 8- and
32-bit variants; DataOffset sizes 4/8 yield exactly the 32- and 64-bit
variants; any declared size outside the permitted set makes the
corresponding reader fail. -/
theorem width_dispatch_exhaustive (ops : List Operand) (x : XmlNode) :
    (∀ c, readImmediate ops x = Except.ok c →
       ∃ s n, lookupAttr x "size" = some s ∧ pyInt s 10 = Except.ok n ∧
         ((n = 1 ∧ ∃ j, c = Component.immediateByte j) ∨
          (n = 2 ∧ ∃ j, c = Component.immediateWord j) ∨
          (n = 4 ∧ ∃ j, c = Component.immediateDWord j) ∨
          (n = 8 ∧ ∃ j, c = Component.immediateQWord j))) ∧
    (∀ c, readCodeOffset ops x = Except.ok c →
       ∃ s n, lookupAttr x "size" = some s ∧ pyInt s 10 = Except.ok n ∧
         ((n = 1 ∧ ∃ j, c = Component.codeOffset8 j) ∨
          (n = 4 ∧ ∃ j, c = Component.codeOffset32 j))) ∧
    (∀ c, readDataOffset ops x = Except.ok c →
       ∃ s n, lookupAttr x "size" = some s ∧ pyInt s 10 = Except.ok n ∧
         ((n = 4 ∧ ∃ j, c = Component.dataOffset32 j) ∨
          (n = 8 ∧ ∃ j, c = Component.dataOffset64 j))) ∧
    (∀ s n, lookupAttr x "size" = some s → pyInt s 10 = Except.ok n →
       ¬(n = 1 ∨ n = 2 ∨ n = 4 ∨ n = 8) →
       ∀ c, readImmediate ops x ≠ Except.ok c) ∧
    (∀ s n, lookupAttr x "size" = some s → pyInt s 10 = Except.ok n →
       ¬(n = 1 ∨ n = 4) → ∀ c, readCodeOffset ops x ≠ Except.ok c) ∧
    (∀ s n, lookupAttr x "size" = some s → pyInt s 10 = Except.ok n →
       ¬(n = 4 ∨ n = 8) → ∀ c, readDataOffset ops x ≠ Except.ok c) := by
  refine ⟨fun c h => readImmediate_ok_char h,
          fun c h => readCodeOffset_ok_char h,
          fun c h => readDataOffset_ok_char h, ?_, ?_, ?_⟩
  · intro s n hs hn hbad c h
    obtain ⟨s', n', hs', hn', hc⟩ := readImmediate_ok_char h
    rw [hs] at hs'
    injection hs' with hss
    subst hss
    rw [hn] at hn'
    injection hn' with hnn
    subst hnn
    rcases hc with ⟨h1, _⟩ | ⟨h2, _⟩ | ⟨h4, _⟩ | ⟨h8, _⟩
    · exact hbad (Or.inl h1)
    · exact hbad (Or.inr (Or.inl h2))
    · exact hbad (Or.inr (Or.inr (Or.inl h4)))
    · exact hbad (Or.inr (Or.inr (Or.inr h8)))
  · intro s n hs hn hbad c h
    obtain ⟨s', n', hs', hn', hc⟩ := readCodeOffset_ok_char h
    rw [hs] at hs'
    injection hs' with hss
    subst hss
    rw [hn] at hn'
    injection hn' with hnn
    subst hnn
    rcases hc with ⟨h1, _⟩ | ⟨h4, _⟩
    · exact hbad (Or.inl h1)
    · exact hbad (Or.inr h4)
  · intro s n hs hn hbad c h
    obtain ⟨s', n', hs', hn', hc⟩ := readDataOffset_ok_char h
    rw [hs] at hs'
    injection hs' with hss
    subst hss
    rw [hn] at hn'
    injection hn' with hnn
    subst hnn
    rcases hc with ⟨h4, _⟩ | ⟨h8, _⟩
    · exact hbad (Or.inl h4)
    · exact hbad (Or.inr h8)

/-- C6 witness: an Immediate declaration with `size="2"` on a one-operand
form yields the Word variant, and a CodeOffset declaration with `size="2"`
cannot load. -/
theorem width_dispatch_exhaustive_witness :
    (∃ s n, lookupAttr (nd "Immediate" [("size", "2"), ("operand-number", "0")] []) "size"
          = some s ∧
        pyInt s 10 = Except.ok n ∧
        ((n = 1 ∧ ∃ j, Component.immediateWord 0 = Component.immediateByte j) ∨
         (n = 2 ∧ ∃ j, Component.immediateWord 0 = Component.immediateWord j) ∨
         (n = 4 ∧ ∃ j, Component.immediateWord 0 = Component.immediateDWord j) ∨
         (n = 8 ∧ ∃ j, Component.immediateWord 0 = Component.immediateQWord j))) ∧
    (∀ c, readCodeOffset [Operand.mk "rel16" true false]
        (nd "CodeOffset" [("size", "2"), ("operand-number", "0")] []) ≠ Except.ok c) := by
  constructor
  · exact (width_dispatch_exhaustive [Operand.mk "imm16" true false]
      (nd "Immediate" [("size", "2"), ("operand-number", "0")] [])).1
      (Component.immediateWord 0) (by rfl)
  · exact (width_dispatch_exhaustive [Operand.mk "rel16" true false]
      (nd "CodeOffset" [("size", "2"), ("operand-number", "0")] [])).2.2.2.2.1
      "2" 2 (by rfl) (by rfl) (by decide)

/-- C9 amended: the Go/Plan 9 display name is optional — a form node without
`go-name` loads with the name recorded as `none` (the explicit "unsupported"
value), never as an empty string; the GNU-assembler name is mandatory — a
form node without `gas-name` aborts the load of that form. -/
theorem alt_names_absence_behavior (instrName : String) (x : XmlNode) (st : Option REX) :
    (lookupAttr x "gas-name" = none →
       ∀ f st', readForm instrName x st ≠ Except.ok (f, st')) ∧
    (∀ f st', readForm instrName x st = Except.ok (f, st') →
       f.gas_name = lookupAttr x "gas-name" ∧
       f.go_name = lookupAttr x "go-name" ∧
       (lookupAttr x "go-name" = none → f.go_name = none)) := by
  constructor
  · intro hnone f st' h
    unfold readForm at h
    obtain ⟨gas, hgas, h⟩ := exBind_ok h
    rw [getAttr_ok hgas] at hnone
    exact Option.noConfusion hnone
  · intro f st' h
    unfold readForm at h
    obtain ⟨gas, hgas, h⟩ := exBind_ok h
    obtain ⟨ops, hops, h⟩ := exBind_ok h
    obtain ⟨imp, himp, h⟩ := exBind_ok h
    obtain ⟨isa, hisa, h⟩ := exBind_ok h
    obtain ⟨encs, hencs, h⟩ := exBind_ok h
    injection h with h
    injection h with h1 h2
    subst h1
    refine ⟨?_, rfl, fun hn => hn⟩
    rw [getAttr_ok hgas]

/-- C9 witness: a form node carrying only `gas-name="qux"` loads with
`gas_name` recorded and `go_name = none`. -/
theorem alt_names_absence_behavior_witness :
    (some "qux" : Option String) = lookupAttr (nd "IF" [("gas-name", "qux")] []) "gas-name" ∧
    (none : Option String) = lookupAttr (nd "IF" [("gas-name", "qux")] []) "go-name" ∧
    (lookupAttr (nd "IF" [("gas-name", "qux")] []) "go-name" = none →
      (none : Option String) = none) := by
  exact (alt_names_absence_behavior "QUX" (nd "IF" [("gas-name", "qux")] []) none).2
    { name := "QUX", gas_name := some "qux", go_name := none, mmx_mode := none,
      xmm_mode := none, operands := [], implicit_inputs := [], implicit_outputs := [],
      isa_extensions := [], encodings := [] }
    none (by rfl)

/-! ### In-bounds invariant of operand references (claim C4) -/

/-- A bit source's operand reference, when present, lies below `n`. -/
def bsBound (n : Nat) : BitSource → Bool
  | BitSource.opRef i => decide (i < n)
  | _ => true

/-- Every operand reference of a component lies below `n`. -/
def compBound (n : Nat) : Component → Bool
  | Component.prefixByte _ => true
  | Component.rex r => bsBound n r.W && bsBound n r.R && bsBound n r.X && bsBound n r.B
  | Component.vex v => bsBound n v.W && bsBound n v.L && bsBound n v.R && bsBound n v.X &&
      bsBound n v.B && bsBound n v.vvvv
  | Component.opcode o =>
      match o.addend with
      | some j => decide (j < n)
      | none => true
  | Component.modRM m => bsBound n m.mode && bsBound n m.reg && decide (m.rm < n)
  | Component.immediateByte j => decide (j < n)
  | Component.immediateWord j => decide (j < n)
  | Component.immediateDWord j => decide (j < n)
  | Component.immediateQWord j => decide (j < n)
  | Component.codeOffset8 j => decide (j < n)
  | Component.codeOffset32 j => decide (j < n)
  | Component.dataOffset32 j => decide (j < n)
  | Component.dataOffset64 j => decide (j < n)

/-- Every operand reference of an encoding lies below `n`. -/
def encBound (n : Nat) (e : Encoding) : Bool :=
  e.components.all (compBound n)

/-- Every operand reference in a form's encodings points within bounds of the
form's own operand sequence. -/
def formBound (f : InstructionForm) : Bool :=
  f.encodings.all (encBound f.operands.length)

/-- Every form of an instruction satisfies `formBound`. -/
def instrBound (i : Instruction) : Bool :=
  i.forms.all formBound

/-- Every instruction of a model satisfies `instrBound`. -/
def modelBound (m : List Instruction) : Bool :=
  m.all instrBound

/-- A Python index that resolves does so to a position inside the list. -/
theorem resolveOperand_lt {ops : List Operand} {i : Int} {j : Nat}
    (h : resolveOperand ops i = Except.ok j) : j < ops.length := by
  unfold resolveOperand at h
  split at h
  case isTrue hc =>
    injection h with h
    omega
  case isFalse hc =>
    split at h
    case isTrue hc2 =>
      injection h with h
      omega
    case isFalse hc2 =>
      exact absurd h (by simp)

/-- An operand-reference attribute that resolves points inside the operand
list. -/
theorem readOperandRef_lt {ops : List Operand} {s : String} {j : Nat}
    (h : readOperandRef ops s = Except.ok j) : j < ops.length := by
  unfold readOperandRef at h
  obtain ⟨i, hi, h⟩ := exBind_ok h
  exact resolveOperand_lt h

/-- A literal-or-ignored resolution never produces an operand reference. -/
theorem readLitOrIgnored_bound {n : Nat} {s : String} {bs : BitSource}
    (h : readLitOrIgnored s = Except.ok bs) : bsBound n bs = true := by
  unfold readLitOrIgnored at h
  split at h
  · injection h with h
    rw [← h]
    rfl
  · obtain ⟨v, hv, h⟩ := exBind_ok h
    injection h with h
    rw [← h]
    rfl

/-- `rexFieldR` only produces in-bounds references. -/
theorem rexFieldR_bound {ops : List Operand} {x : XmlNode} {bs : BitSource}
    (h : rexFieldR ops x = Except.ok bs) : bsBound ops.length bs = true := by
  unfold rexFieldR at h
  split at h
  · obtain ⟨_, _, h⟩ := exBind_ok h
    obtain ⟨s, hs, h⟩ := exBind_ok h
    exact readLitOrIgnored_bound h
  · obtain ⟨_, _, h⟩ := exBind_ok h
    obtain ⟨s, hs, h⟩ := exBind_ok h
    obtain ⟨j, hj, h⟩ := exBind_ok h
    injection h with h
    rw [← h]
    simp [bsBound, readOperandRef_lt hj]

/-- `rexFieldB` only produces in-bounds references. -/
theorem rexFieldB_bound {ops : List Operand} {x : XmlNode} {bs : BitSource}
    (h : rexFieldB ops x = Except.ok bs) : bsBound ops.length bs = true := by
  unfold rexFieldB at h
  split at h
  · obtain ⟨_, _, h⟩ := exBind_ok h
    obtain ⟨_, _, h⟩ := exBind_ok h
    obtain ⟨s, hs, h⟩ := exBind_ok h
    exact readLitOrIgnored_bound h
  · split at h
    · obtain ⟨_, _, h⟩ := exBind_ok h
      obtain ⟨_, _, h⟩ := exBind_ok h
      obtain ⟨s, hs, h⟩ := exBind_ok h
      obtain ⟨j, hj, h⟩ := exBind_ok h
      injection h with h
      rw [← h]
      simp [bsBound, readOperandRef_lt hj]
    · obtain ⟨_, _, h⟩ := exBind_ok h
      obtain ⟨_, _, h⟩ := exBind_ok h
      obtain ⟨_, _, h⟩ := exBind_ok h
      obtain ⟨_, _, h⟩ := exBind_ok h
      obtain ⟨s, hs, h⟩ := exBind_ok h
      obtain ⟨j, hj, h⟩ := exBind_ok h
      injection h with h
      rw [← h]
      simp [bsBound, readOperandRef_lt hj]

/-- `rexFieldX` only produces in-bounds references. -/
theorem rexFieldX_bound {ops : List Operand} {x : XmlNode} {bs : BitSource}
    (h : rexFieldX ops x = Except.ok bs) : bsBound ops.length bs = true := by
  unfold rexFieldX at h
  split at h
  · obtain ⟨_, _, h⟩ := exBind_ok h
    obtain ⟨s, hs, h⟩ := exBind_ok h
    exact readLitOrIgnored_bound h
  · obtain ⟨_, _, h⟩ := exBind_ok h
    obtain ⟨s, hs, h⟩ := exBind_ok h
    obtain ⟨j, hj, h⟩ := exBind_ok h
    injection h with h
    rw [← h]
    simp [bsBound, readOperandRef_lt hj]

/-- `vexFieldR` only produces in-bounds references. -/
theorem vexFieldR_bound {ops : List Operand} {st : Option REX} {x : XmlNode} {bs : BitSource}
    (h : vexFieldR ops st x = Except.ok bs) : bsBound ops.length bs = true := by
  unfold vexFieldR at h
  split at h
  · obtain ⟨_, _, h⟩ := exBind_ok h
    obtain ⟨s, hs, h⟩ := exBind_ok h
    split at h
    · injection h with h
      rw [← h]
      rfl
    · obtain ⟨v, hv, h⟩ := exBind_ok h
      injection h with h
      rw [← h]
      rfl
  · obtain ⟨_, _, h⟩ := exBind_ok h
    obtain ⟨s, hs, h⟩ := exBind_ok h
    obtain ⟨j, hj, h⟩ := exBind_ok h
    injection h with h
    rw [← h]
    simp [bsBound, readOperandRef_lt hj]

/-- `vexFieldB` only produces in-bounds references. -/
theorem vexFieldB_bound {ops : List Operand} {st : Option REX} {x : XmlNode} {bs : BitSource}
    (h : vexFieldB ops st x = Except.ok bs) : bsBound ops.length bs = true := by
  unfold vexFieldB at h
  split at h
  · obtain ⟨_, _, h⟩ := exBind_ok h
    obtain ⟨_, _, h⟩ := exBind_ok h
    obtain ⟨s, hs, h⟩ := exBind_ok h
    split at h
    · injection h with h
      rw [← h]
      rfl
    · obtain ⟨v, hv, h⟩ := exBind_ok h
      injection h with h
      rw [← h]
      rfl
  · split at h
    · obtain ⟨_, _, h⟩ := exBind_ok h
      obtain ⟨_, _, h⟩ := exBind_ok h
      obtain ⟨s, hs, h⟩ := exBind_ok h
      obtain ⟨j, hj, h⟩ := exBind_ok h
      injection h with h
      rw [← h]
      simp [bsBound, readOperandRef_lt hj]
    · obtain ⟨_, _, h⟩ := exBind_ok h
      obtain ⟨_, _, h⟩ := exBind_ok h
      obtain ⟨_, _, h⟩ := exBind_ok h
      obtain ⟨_, _, h⟩ := exBind_ok h
      obtain ⟨s, hs, h⟩ := exBind_ok h
      obtain ⟨j, hj, h⟩ := exBind_ok h
      injection h with h
      rw [← h]
      simp [bsBound, readOperandRef_lt hj]

/-- `vexFieldX` only produces in-bounds references. -/
theorem vexFieldX_bound {ops : List Operand} {x : XmlNode} {bs : BitSource}
    (h : vexFieldX ops x = Except.ok bs) : bsBound ops.length bs = true := by
  unfold vexFieldX at h
  split at h
  · obtain ⟨_, _, h⟩ := exBind_ok h
    obtain ⟨s, hs, h⟩ := exBind_ok h
    exact readLitOrIgnored_bound h
  · obtain ⟨_, _, h⟩ := exBind_ok h
    obtain ⟨s, hs, h⟩ := exBind_ok h
    obtain ⟨j, hj, h⟩ := exBind_ok h
    injection h with h
    rw [← h]
    simp [bsBound, readOperandRef_lt hj]

/-- `vexFieldVvvv` only produces in-bounds references. -/
theorem vexFieldVvvv_bound {ops : List Operand} {x : XmlNode} {bs : BitSource}
    (h : vexFieldVvvv ops x = Except.ok bs) : bsBound ops.length bs = true := by
  unfold vexFieldVvvv at h
  split at h
  · obtain ⟨_, _, h⟩ := exBind_ok h
    obtain ⟨s, hs, h⟩ := exBind_ok h
    obtain ⟨_, _, h⟩ := exBind_ok h
    obtain ⟨v, hv, h⟩ := exBind_ok h
    injection h with h
    rw [← h]
    rfl
  · obtain ⟨_, _, h⟩ := exBind_ok h
    obtain ⟨s, hs, h⟩ := exBind_ok h
    obtain ⟨j, hj, h⟩ := exBind_ok h
    injection h with h
    rw [← h]
    simp [bsBound, readOperandRef_lt hj]

/-- A REX component built by the loader has all references in bounds. -/
theorem readREX_bound {ops : List Operand} {x : XmlNode} {r : REX}
    (h : readREX ops x = Except.ok r) :
    compBound ops.length (Component.rex r) = true := by
  unfold readREX at h
  obtain ⟨_, _, h⟩ := exBind_ok h
  obtain ⟨ms, _, h⟩ := exBind_ok h
  obtain ⟨b, _, h⟩ := exBind_ok h
  obtain ⟨_, _, h⟩ := exBind_ok h
  obtain ⟨ws, _, h⟩ := exBind_ok h
  obtain ⟨w, hw, h⟩ := exBind_ok h
  obtain ⟨rr, hr, h⟩ := exBind_ok h
  obtain ⟨bb, hb, h⟩ := exBind_ok h
  obtain ⟨xx, hx, h⟩ := exBind_ok h
  injection h with h
  subst h
  simp only [compBound, Bool.and_eq_true]
  exact ⟨⟨⟨readLitOrIgnored_bound hw, rexFieldR_bound hr⟩, rexFieldX_bound hx⟩,
    rexFieldB_bound hb⟩

/-- A VEX component built by the loader has all references in bounds. -/
theorem readVEX_bound {ops : List Operand} {st : Option REX} {x : XmlNode} {v : VEX}
    (h : readVEX ops st x = Except.ok v) :
    compBound ops.length (Component.vex v) = true := by
  unfold readVEX at h
  obtain ⟨_, _, h⟩ := exBind_ok h
  obtain ⟨ws, _, h⟩ := exBind_ok h
  obtain ⟨w, hw, h⟩ := exBind_ok h
  obtain ⟨_, _, h⟩ := exBind_ok h
  obtain ⟨ls, _, h⟩ := exBind_ok h
  obtain ⟨l, hl, h⟩ := exBind_ok h
  obtain ⟨mms, _, h⟩ := exBind_ok h
  obtain ⟨mm, _, h⟩ := exBind_ok h
  obtain ⟨pps, _, h⟩ := exBind_ok h
  obtain ⟨pp, _, h⟩ := exBind_ok h
  obtain ⟨rr, hr, h⟩ := exBind_ok h
  obtain ⟨bb, hb, h⟩ := exBind_ok h
  obtain ⟨xx, hx, h⟩ := exBind_ok h
  obtain ⟨vv, hv, h⟩ := exBind_ok h
  injection h with h
  subst h
  simp only [compBound, Bool.and_eq_true]
  exact ⟨⟨⟨⟨⟨readLitOrIgnored_bound hw, readLitOrIgnored_bound hl⟩,
    vexFieldR_bound hr⟩, vexFieldX_bound hx⟩, vexFieldB_bound hb⟩,
    vexFieldVvvv_bound hv⟩

/-- An Opcode component built by the loader has its addend, when present, in
bounds. -/
theorem readOpcode_bound {ops : List Operand} {x : XmlNode} {o : Opcode}
    (h : readOpcode ops x = Except.ok o) :
    compBound ops.length (Component.opcode o) = true := by
  unfold readOpcode at h
  obtain ⟨bs, _, h⟩ := exBind_ok h
  obtain ⟨b, _, h⟩ := exBind_ok h
  split at h
  · obtain ⟨s, hs, h⟩ := exBind_ok h
    obtain ⟨j, hj, h⟩ := exBind_ok h
    injection h with h
    subst h
    simp [compBound, readOperandRef_lt hj]
  · injection h with h
    subst h
    rfl

/-- A ModRM component built by the loader has all references in bounds. -/
theorem readModRM_bound {ops : List Operand} {x : XmlNode} {m : ModRM}
    (h : readModRM ops x = Except.ok m) :
    compBound ops.length (Component.modRM m) = true := by
  have hf := readModRM_ok_fields h
  obtain ⟨hmo, hrg, s, hs, hrm⟩ := hf
  have hmode : bsBound ops.length m.mode = true := by
    unfold modrmFieldMode at hmo
    split at hmo
    · obtain ⟨s1, _, hmo⟩ := exBind_ok hmo
      obtain ⟨mv, _, hmo⟩ := exBind_ok hmo
      obtain ⟨_, _, hmo⟩ := exBind_ok hmo
      injection hmo with hmo
      rw [← hmo]
      rfl
    · obtain ⟨_, _, hmo⟩ := exBind_ok hmo
      obtain ⟨ms, _, hmo⟩ := exBind_ok hmo
      obtain ⟨rs, _, hmo⟩ := exBind_ok hmo
      obtain ⟨_, _, hmo⟩ := exBind_ok hmo
      obtain ⟨j, hj, hmo⟩ := exBind_ok hmo
      injection hmo with hmo
      rw [← hmo]
      simp [bsBound, readOperandRef_lt hj]
  have hreg : bsBound ops.length m.reg = true := by
    unfold modrmFieldReg at hrg
    split at hrg
    · obtain ⟨s1, _, hrg⟩ := exBind_ok hrg
      obtain ⟨rv, _, hrg⟩ := exBind_ok hrg
      obtain ⟨_, _, hrg⟩ := exBind_ok hrg
      injection hrg with hrg
      rw [← hrg]
      rfl
    · obtain ⟨_, _, hrg⟩ := exBind_ok hrg
      obtain ⟨s1, _, hrg⟩ := exBind_ok hrg
      obtain ⟨j, hj, hrg⟩ := exBind_ok hrg
      injection hrg with hrg
      rw [← hrg]
      simp [bsBound, readOperandRef_lt hj]
  simp [compBound, hmode, hreg, readOperandRef_lt hrm]

/-- An immediate component built by the loader has its reference in
bounds. -/
theorem readImmediate_bound {ops : List Operand} {x : XmlNode} {c : Component}
    (h : readImmediate ops x = Except.ok c) : compBound ops.length c = true := by
  unfold readImmediate at h
  obtain ⟨_, _, h⟩ := exBind_ok h
  obtain ⟨ss, _, h⟩ := exBind_ok h
  obtain ⟨size, _, h⟩ := exBind_ok h
  obtain ⟨_, _, h⟩ := exBind_ok h
  split at h
  · split at h
    · obtain ⟨s, _, h⟩ := exBind_ok h
      obtain ⟨j, hj, h⟩ := exBind_ok h
      injection h with h
      rw [← h]
      simp [compBound, readOperandRef_lt hj]
    · exact absurd h (by simp)
  · split at h
    · obtain ⟨_, _, h⟩ := exBind_ok h
      obtain ⟨s, _, h⟩ := exBind_ok h
      obtain ⟨j, hj, h⟩ := exBind_ok h
      injection h with h
      rw [← h]
      simp [compBound, readOperandRef_lt hj]
    · split at h
      · obtain ⟨_, _, h⟩ := exBind_ok h
        obtain ⟨s, _, h⟩ := exBind_ok h
        obtain ⟨j, hj, h⟩ := exBind_ok h
        injection h with h
        rw [← h]
        simp [compBound, readOperandRef_lt hj]
      · split at h
        · obtain ⟨_, _, h⟩ := exBind_ok h
          obtain ⟨s, _, h⟩ := exBind_ok h
          obtain ⟨j, hj, h⟩ := exBind_ok h
          injection h with h
          rw [← h]
          simp [compBound, readOperandRef_lt hj]
        · exact absurd h (by simp)

/-- A code-offset component built by the loader has its reference in
bounds. -/
theorem readCodeOffset_bound {ops : List Operand} {x : XmlNode} {c : Component}
    (h : readCodeOffset ops x = Except.ok c) : compBound ops.length c = true := by
  unfold readCodeOffset at h
  obtain ⟨ss, _, h⟩ := exBind_ok h
  obtain ⟨size, _, h⟩ := exBind_ok h
  obtain ⟨_, _, h⟩ := exBind_ok h
  split at h
  · obtain ⟨s, _, h⟩ := exBind_ok h
    obtain ⟨j, hj, h⟩ := exBind_ok h
    injection h with h
    rw [← h]
    simp [compBound, readOperandRef_lt hj]
  · split at h
    · obtain ⟨s, _, h⟩ := exBind_ok h
      obtain ⟨j, hj, h⟩ := exBind_ok h
      injection h with h
      rw [← h]
      simp [compBound, readOperandRef_lt hj]
    · exact absurd h (by simp)

/-- A data-offset component built by the loader has its reference in
bounds. -/
theorem readDataOffset_bound {ops : List Operand} {x : XmlNode} {c : Component}
    (h : readDataOffset ops x = Except.ok c) : compBound ops.length c = true := by
  unfold readDataOffset at h
  obtain ⟨ss, _, h⟩ := exBind_ok h
  obtain ⟨size, _, h⟩ := exBind_ok h
  obtain ⟨_, _, h⟩ := exBind_ok h
  split at h
  · obtain ⟨s, _, h⟩ := exBind_ok h
    obtain ⟨j, hj, h⟩ := exBind_ok h
    injection h with h
    rw [← h]
    simp [compBound, readOperandRef_lt hj]
  · split at h
    · obtain ⟨s, _, h⟩ := exBind_ok h
      obtain ⟨j, hj, h⟩ := exBind_ok h
      injection h with h
      rw [← h]
      simp [compBound, readOperandRef_lt hj]
    · exact absurd h (by simp)

/-- Every component the dispatch produces has its references in bounds. -/
theorem readComponent_bound {ops : List Operand} {st : Option REX} {x : XmlNode}
    {c : Component} {st' : Option REX}
    (h : readComponent ops st x = Except.ok (some c, st')) :
    compBound ops.length c = true := by
  unfold readComponent at h
  split at h
  · obtain ⟨p, hp, h⟩ := exBind_ok h
    injection h with h
    injection h with h1 h2
    injection h1 with h1
    rw [← h1]
    rfl
  · split at h
    · obtain ⟨r, hr, h⟩ := exBind_ok h
      injection h with h
      injection h with h1 h2
      injection h1 with h1
      rw [← h1]
      exact readREX_bound hr
    · split at h
      · obtain ⟨v, hv, h⟩ := exBind_ok h
        injection h with h
        injection h with h1 h2
        injection h1 with h1
        rw [← h1]
        exact readVEX_bound hv
      · split at h
        · obtain ⟨o, ho, h⟩ := exBind_ok h
          injection h with h
          injection h with h1 h2
          injection h1 with h1
          rw [← h1]
          exact readOpcode_bound ho
        · split at h
          · obtain ⟨m, hm, h⟩ := exBind_ok h
            injection h with h
            injection h with h1 h2
            injection h1 with h1
            rw [← h1]
            exact readModRM_bound hm
          · split at h
            · obtain ⟨ci, hci, h⟩ := exBind_ok h
              injection h with h
              injection h with h1 h2
              injection h1 with h1
              rw [← h1]
              exact readImmediate_bound hci
            · split at h
              · obtain ⟨ci, hci, h⟩ := exBind_ok h
                injection h with h
                injection h with h1 h2
                injection h1 with h1
                rw [← h1]
                exact readCodeOffset_bound hci
              · split at h
                · obtain ⟨ci, hci, h⟩ := exBind_ok h
                  injection h with h
                  injection h with h1 h2
                  injection h1 with h1
                  rw [← h1]
                  exact readDataOffset_bound hci
                · injection h with h
                  injection h with h1 h2
                  exact Option.noConfusion h1

/-- Every component list an encoding loop produces is in bounds. -/
theorem readEncodingComponents_bound {ops : List Operand} {xs : List XmlNode}
    {st st' : Option REX} {cs : List Component}
    (h : readEncodingComponents ops xs st = Except.ok (cs, st')) :
    cs.all (compBound ops.length) = true := by
  induction xs generalizing st st' cs with
  | nil =>
      unfold readEncodingComponents at h
      injection h with h
      injection h with h1 h2
      rw [← h1]
      rfl
  | cons x rest ih =>
      unfold readEncodingComponents at h
      obtain ⟨⟨c?, st1⟩, hc, h⟩ := exBind_ok h
      obtain ⟨⟨cs1, st2⟩, hcs, h⟩ := exBind_ok h
      cases c? with
      | some c =>
          simp only at h
          injection h with h
          injection h with h1 h2
          rw [← h1]
          simp only [List.all_cons, Bool.and_eq_true]
          exact ⟨readComponent_bound hc, ih hcs⟩
      | none =>
          simp only at h
          injection h with h
          injection h with h1 h2
          rw [← h1]
          exact ih hcs

/-- Every encoding list the encoding loop produces is in bounds. -/
theorem readEncodings_bound {ops : List Operand} {xs : List XmlNode}
    {st st' : Option REX} {encs : List Encoding}
    (h : readEncodings ops xs st = Except.ok (encs, st')) :
    encs.all (encBound ops.length) = true := by
  induction xs generalizing st st' encs with
  | nil =>
      unfold readEncodings at h
      injection h with h
      injection h with h1 h2
      rw [← h1]
      rfl
  | cons x rest ih =>
      unfold readEncodings at h
      obtain ⟨⟨cs, st1⟩, hc, h⟩ := exBind_ok h
      obtain ⟨⟨more, st2⟩, hm, h⟩ := exBind_ok h
      injection h with h
      injection h with h1 h2
      rw [← h1]
      simp only [List.all_cons, Bool.and_eq_true]
      exact ⟨readEncodingComponents_bound hc, ih hm⟩

/-- Every form the form builder produces keeps all operand references inside
its own operand sequence. -/
theorem readForm_bound {instrName : String} {x : XmlNode} {st st' : Option REX}
    {f : InstructionForm} (h : readForm instrName x st = Except.ok (f, st')) :
    formBound f = true := by
  unfold readForm at h
  obtain ⟨gas, _, h⟩ := exBind_ok h
  obtain ⟨ops, hops, h⟩ := exBind_ok h
  obtain ⟨imp, _, h⟩ := exBind_ok h
  obtain ⟨isa, _, h⟩ := exBind_ok h
  obtain ⟨⟨encs, st1⟩, hencs, h⟩ := exBind_ok h
  injection h with h
  injection h with h1 h2
  rw [← h1]
  unfold formBound
  exact readEncodings_bound hencs

/-- Every form list the form loop produces is in bounds. -/
theorem readForms_bound {instrName : String} {xs : List XmlNode}
    {st st' : Option REX} {fs : List InstructionForm}
    (h : readForms instrName xs st = Except.ok (fs, st')) :
    fs.all formBound = true := by
  induction xs generalizing st st' fs with
  | nil =>
      unfold readForms at h
      injection h with h
      injection h with h1 h2
      rw [← h1]
      rfl
  | cons x rest ih =>
      unfold readForms at h
      obtain ⟨⟨f, st1⟩, hf, h⟩ := exBind_ok h
      obtain ⟨⟨more, st2⟩, hm, h⟩ := exBind_ok h
      injection h with h
      injection h with h1 h2
      rw [← h1]
      simp only [List.all_cons, Bool.and_eq_true]
      exact ⟨readForm_bound hf, ih hm⟩

/-- Every instruction list the instruction loop produces is in bounds. -/
theorem readInstructions_bound {xs : List XmlNode} {st st' : Option REX}
    {instrs : List Instruction}
    (h : readInstructions xs st = Except.ok (instrs, st')) :
    modelBound instrs = true := by
  induction xs generalizing st st' instrs with
  | nil =>
      unfold readInstructions at h
      injection h with h
      injection h with h1 h2
      rw [← h1]
      rfl
  | cons x rest ih =>
      unfold readInstructions at h
      obtain ⟨_, _, h⟩ := exBind_ok h
      obtain ⟨nm, _, h⟩ := exBind_ok h
      obtain ⟨sm, _, h⟩ := exBind_ok h
      obtain ⟨⟨forms, st1⟩, hf, h⟩ := exBind_ok h
      obtain ⟨⟨more, st2⟩, hm, h⟩ := exBind_ok h
      injection h with h
      injection h with h1 h2
      rw [← h1]
      simp only [modelBound, List.all_cons, Bool.and_eq_true]
      exact ⟨readForms_bound hf, ih hm⟩

/-- C4 amended: an operand-position attribute aborts the load exactly when
the index falls outside Python's indexing range (at or above the operand
count, or below minus the count); a negative index within range resolves
from the end of the sequence without failing, so every operand reference in
a successfully returned model still points within bounds of its owning
form's operand sequence. -/
theorem operand_refs_in_bounds_and_oob_fails :
    (∀ (doc : XmlNode) (instrs : List Instruction),
       read_instruction_set doc = Except.ok instrs → modelBound instrs = true) ∧
    (∀ (ops : List Operand) (i : Int),
       (i < -(ops.length : Int) ∨ (ops.length : Int) ≤ i) →
       resolveOperand ops i = Except.error "IndexError") := by
  constructor
  · intro doc instrs h
    unfold read_instruction_set at h
    obtain ⟨_, _, h⟩ := exBind_ok h
    obtain ⟨nm, _, h⟩ := exBind_ok h
    obtain ⟨_, _, h⟩ := exBind_ok h
    obtain ⟨⟨is, st⟩, hi, h⟩ := exBind_ok h
    injection h with h
    rw [← h]
    exact readInstructions_bound hi
  · intro ops i hout
    unfold resolveOperand
    rw [if_neg (by omega), if_neg (by omega)]

/-- C4 witness: the loader maps `c4doc` to a model whose references are all
in bounds, and an index of 5 on a one-operand list raises `IndexError`. -/
theorem operand_refs_in_bounds_and_oob_fails_witness :
    modelBound c4model = true ∧
    resolveOperand [Operand.mk "r32" true false] 5 = Except.error "IndexError" := by
  constructor
  · exact operand_refs_in_bounds_and_oob_fails.1 c4doc c4model (by rfl)
  · exact operand_refs_in_bounds_and_oob_fails.2 [Operand.mk "r32" true false] 5
      (by decide)

/-- C10: an operand whose type tag is `"zmm"` is classified by the model's
derived predicates as neither register nor memory (the `is_register`
vocabulary stops at `"ymm"`). -/
theorem zmm_not_register_not_memory :
    ∀ (i o : Bool),
      (Operand.mk "zmm" i o).is_register = false ∧
      (Operand.mk "zmm" i o).is_memory = false := by
  decide

end LookAsm
